import Mathlib

/-!
Verification development for the physics-informed nuclear-reactor unit-commitment
repository.

Part I embeds the per-reactor step of `update_kinf_and_deadtime`
(src/functions/update_kinf_and_deadtime.py).  The function updates a table of
reactors row by row; every row's update depends only on that row's previous
state, the reactor family parameters, and that window's dispatch result, so the
embedding is the per-reactor transition function.  Machine floats are embedded
as rationals; the pandas KeyError raised by a failed deadtime-column lookup is
embedded as `Option.none`.

Part II embeds the constraint set built by `setup_optimization_problem_for_ap1000`
(src/functions/.ipynb_checkpoints/setup_optimization_problem_for_ap1000-checkpoint.py)
as a feasibility predicate over a window-long assignment of all decision
variables.  Generators are identified positionally: row `g` (0-based) carries
`r_id = g + 1`, exactly the identification the source uses when it indexes
variable arrays by `r_id - 1`.
-/

/-! ### Part I: reactor physics updater -/

/-- Per-reactor family parameters of `update_kinf_and_deadtime`:
the burnup coefficient (`mAP1000` or `mAP300`), the family rows of
`MaxReacTable` as (MaxReactivityXe, p0) pairs, the non-`'p'` columns of the
family deadtime matrix as (k-breakpoint, deadtime) pairs in column order,
the `pmin` floor, the `refuel_span`, and the window length `len(T)`. -/
structure ReactorParams where
  m : ℚ
  maxReacRows : List (ℚ × ℚ)
  deadtimeCols : List (ℚ × ℤ)
  pmin : ℚ
  refuelSpan : ℤ
  lenT : ℕ

/-- One reactor's row of the rolling state: the columns of `kinfTable_udt`
(`keff`, `p0`, `ReacValue`, `alpha`, `nearest_k`), its row of
`terminate_loop_indicator` (`termination_condition`, `span_remaining`), and its
row of `D_points` (`deadtime_value`).  `nearest_k = NaN` is `none`. -/
structure ReactorState where
  keff : ℚ
  p0 : ℚ
  reacValue : ℚ
  alpha : ℚ
  nearestK : Option ℚ
  terminationCondition : ℤ
  spanRemaining : ℤ
  deadtimeValue : ℤ
deriving DecidableEq

/-- Lines 47-50: `alpha = TotalGeneration / (existing_cap_mw * len(T))`. -/
def alphaOf (P : ReactorParams) (totalGen cap : ℚ) : ℚ :=
  totalGen / (cap * (P.lenT : ℚ))

/-- Lines 53-58: `keff -= m * alpha`. -/
def depletedKeff (P : ReactorParams) (totalGen cap : ℚ) (s : ReactorState) : ℚ :=
  s.keff - P.m * alphaOf P totalGen cap

/-- Line 61: `ReacValue = 1e5 * (keff - 1) / keff`. -/
def reacOf (keff : ℚ) : ℚ := 100000 * (keff - 1) / keff

/-- Lines 64-79: among the family rows whose `MaxReactivityXe` does not exceed
the reactivity (`differences >= 0`), pick the one minimising the difference
(`idxmin`: the first minimiser), and return its `p0`; `none` when no row
qualifies (NaN). -/
def p0Lookup (rows : List (ℚ × ℚ)) (rv : ℚ) : Option ℚ :=
  ((rows.filter (fun r => decide (0 ≤ rv - r.1))).foldl
    (fun acc r =>
      match acc with
      | none => some r
      | some b => if rv - r.1 < rv - b.1 then some r else some b) none).map Prod.snd

/-- Line 82: `p0 = 1` when the lookup found nothing, else `max(p0, pmin)`. -/
def p0Of (P : ReactorParams) (rv : ℚ) : ℚ :=
  match p0Lookup P.maxReacRows rv with
  | none => 1
  | some v => max v P.pmin

/-- Lines 92-95: decrement `span_remaining` when it is positive, keep it
otherwise. -/
def decSpan (s : ReactorState) : ℤ :=
  if s.spanRemaining ≤ 0 then s.spanRemaining else s.spanRemaining - 1

/-- Lines 47-113 of `update_kinf_and_deadtime`, for one reactor: deplete
`keff`, recompute `ReacValue` and `p0`, clear `nearest_k` to NaN, decrement the
outage countdown, zero the physics fields while the countdown is positive
(lines 97-101), and reset `keff` to 1.205 with the flag cleared when the
countdown is at zero with the termination flag set (lines 103-113). -/
def preStep (P : ReactorParams) (totalGen cap : ℚ) (s : ReactorState) : ReactorState :=
  if 0 < decSpan s then
    { s with keff := 0, p0 := 0, reacValue := 0, alpha := 0,
             nearestK := none, spanRemaining := decSpan s }
  else if decSpan s = 0 ∧ s.terminationCondition = 1 then
    { s with keff := 1.205, p0 := 0, alpha := 0, reacValue := reacOf 1.205,
             nearestK := none, spanRemaining := decSpan s, terminationCondition := 0 }
  else
    { s with keff := depletedKeff P totalGen cap s,
             p0 := p0Of P (reacOf (depletedKeff P totalGen cap s)),
             reacValue := reacOf (depletedKeff P totalGen cap s),
             alpha := alphaOf P totalGen cap,
             nearestK := none, spanRemaining := decSpan s }

/-- Line 123-125: the breakpoints strictly below `keff`
(`float(col) < keff_value`). -/
def kvalsOf (cols : List (ℚ × ℤ)) (keff : ℚ) : List ℚ :=
  (cols.filter (fun c => decide (c.1 < keff))).map Prod.fst

/-- Line 128-129: the last non-`'p'` column of the deadtime matrix, defaulting
to `1.0` when there is none (Python `float(last_column) if last_column else 1.0`). -/
def lastColKey (cols : List (ℚ × ℤ)) : ℚ :=
  match cols.getLast? with
  | some c => c.1
  | none => 1

/-- Python `max` of the breakpoint list. -/
def listMaxD : List ℚ → ℚ
  | [] => 1
  | x :: xs => xs.foldl max x

/-- Lines 145-146: look the selected breakpoint up among the deadtime-matrix
columns and take the column's deadtime value; `none` embeds the KeyError
raised when the label is absent. -/
def dtLookup (cols : List (ℚ × ℤ)) (k : ℚ) : Option ℤ :=
  (cols.find? (fun c => decide (c.1 = k))).map Prod.snd

/-- Lines 116-147, the per-reactor loop body: when no breakpoint lies strictly
below `keff`, take the table's last column as `nearest_k` and, if no outage is
pending (`termination_condition == 0`), schedule one (flag 1, countdown
`refuel_span`) and zero the physics fields; otherwise `nearest_k` is the
greatest breakpoint strictly below `keff`.  In either case `nearest_k` and the
looked-up deadtime are written back. -/
def lookupStep (P : ReactorParams) (s : ReactorState) : Option ReactorState :=
  if kvalsOf P.deadtimeCols s.keff = [] then
    match dtLookup P.deadtimeCols (lastColKey P.deadtimeCols) with
    | none => none
    | some dv =>
      if s.terminationCondition = 0 then
        some { s with terminationCondition := 1, spanRemaining := P.refuelSpan,
                      keff := 0, p0 := 0, reacValue := 0, alpha := 0,
                      nearestK := some (lastColKey P.deadtimeCols), deadtimeValue := dv }
      else
        some { s with nearestK := some (lastColKey P.deadtimeCols), deadtimeValue := dv }
  else
    match dtLookup P.deadtimeCols (listMaxD (kvalsOf P.deadtimeCols s.keff)) with
    | none => none
    | some dv =>
      some { s with nearestK := some (listMaxD (kvalsOf P.deadtimeCols s.keff)),
                    deadtimeValue := dv }

/-- One full call of `update_kinf_and_deadtime` restricted to one reactor:
the table-wide stages (lines 47-113) followed by the per-reactor loop body
(lines 116-147). -/
def updateStep (P : ReactorParams) (totalGen cap : ℚ) (s : ReactorState) :
    Option ReactorState :=
  lookupStep P (preStep P totalGen cap s)

/-! ### Part II: unit-commitment problem builder, constraint set -/

/-- One row of `gen_df`, restricted to the columns the constraint set reads.
The row at 0-based position `g` carries `r_id = g + 1`. -/
structure Gen where
  resource : String
  existing_cap_mw : ℚ
  min_power : ℚ
  ramp_up_percentage : ℚ
  ramp_dn_percentage : ℚ
  up_time : ℚ
  is_variable : ℚ

instance : Inhabited Gen := ⟨⟨"", 0, 0, 0, 0, 0, 0⟩⟩

/-- The inputs of `setup_optimization_problem_for_ap1000` that the constraint
set reads: the fleet, the horizon length `len(T)`, the hourly demand, the
per-variable-generator hourly capacity factors (`gen_var_cf`), the `D_points`
table ((r_id, deadtime_value) rows), the `first_run` flag, the
`remaining_downtime` table ((generator, remaining_downtime) rows), the
commitment column of `commit_at_len_T` ((generator, commitment) rows), the last
`soc_transfer` value, and `PHS_duration`. -/
structure UCData where
  gens : List Gen
  lenT : ℕ
  demand : ℕ → ℚ
  cf : ℕ → ℕ → ℚ
  Dpoints : List (ℕ × ℤ)
  first_run : Bool
  remaining_downtime : List (ℕ × ℤ)
  commit_prev : List (ℕ × ℤ)
  soc_transfer_last : ℚ
  PHS_duration : ℚ

/-- One assignment of every decision variable of the built problem, indexed by
0-based generator row and hour. -/
structure UCAssign where
  GEN : ℕ → ℕ → ℚ
  GENAUX : ℕ → ℕ → ℚ
  COMMIT : ℕ → ℕ → ℚ
  START : ℕ → ℕ → ℚ
  SHUT : ℕ → ℕ → ℚ
  Rd : ℕ → ℕ → ℚ
  Up : ℕ → ℕ → ℚ
  St : ℕ → ℕ → ℚ
  curtailment : ℕ → ℕ → ℚ
  dyn : ℕ → ℕ → ℤ
  NSE : ℕ → ℚ
  SOC : ℕ → ℚ
  CHARGE : ℕ → ℚ
  DISCHARGE : ℕ → ℚ
  CHARGE_MODE : ℕ → ℚ

abbrev nGen (d : UCData) : ℕ := d.gens.length

abbrev genAt (d : UCData) (g : ℕ) : Gen := d.gens.getD g default

abbrev capOf (d : UCData) (g : ℕ) : ℚ := (genAt d g).existing_cap_mw

abbrev pminOf (d : UCData) (g : ℕ) : ℚ := capOf d g * (genAt d g).min_power

abbrev rupOf (d : UCData) (g : ℕ) : ℚ := capOf d g * (genAt d g).ramp_up_percentage

abbrev rdnOf (d : UCData) (g : ℕ) : ℚ := capOf d g * (genAt d g).ramp_dn_percentage

/-- `x` takes a boolean solver value. -/
abbrev isBit (x : ℚ) : Prop := x = 0 ∨ x = 1

/-- Line 98: `PMINSTABLE = 10`. -/
def pminstableSpan : ℕ := 10

/-- Line 99: `up_time = 6`. -/
def upTimeConst : ℕ := 6

/-- Line 269: `one_way_efficiency = 0.84`. -/
def effPHS : ℚ := 0.84

/-- Line 221: the Big-M constant used in the ramp activation constraints. -/
def bigM : ℚ := 1000

/-- D.3.2: the generator's downtime span from `D_points` (first matching
`r_id` row), defaulting to `min_dn_time = 10`. -/
def dnTimeOf (d : UCData) (rid : ℕ) : ℤ :=
  ((d.Dpoints.find? (fun p => decide (p.1 = rid))).map Prod.snd).getD 10

/-- D.6.3: the generator's deadtime value from `D_points`, defaulting to `0`. -/
def deadtimeValOf (d : UCData) (rid : ℕ) : ℚ :=
  (((d.Dpoints.find? (fun p => decide (p.1 = rid))).map Prod.snd).getD 0 : ℤ)

/-- Line 271: the `existing_cap_mw` of the first pumped-storage row. -/
def phsCapRaw (d : UCData) : ℚ :=
  match d.gens.find? (fun g => decide (g.resource = "hydroelectric_pumped_storage")) with
  | some g => g.existing_cap_mw
  | none => 0

/-- Line 271: the pumped-storage power capacity,
`int(existing_cap_mw)` of the first pumped-storage row. -/
def powerCapacity (d : UCData) : ℚ :=
  ((Rat.floor (phsCapRaw d) : ℤ) : ℚ)

/-- Line 272: `energy_capacity = power_capacity * duration_hr`. -/
def energyCapacity (d : UCData) : ℚ := powerCapacity d * d.PHS_duration

/-- Sum of `f` over `[lo, hi)`; empty when `hi ≤ lo` — the Python slice
`x[lo:hi]`. -/
def sumRange (f : ℕ → ℚ) (lo hi : ℕ) : ℚ :=
  ((List.range (hi - lo)).map (fun j => f (lo + j))).sum

/-- `cp.sum(GEN, axis=0)` at one hour: dispatch summed over every generator row. -/
def fleetSum (d : UCData) (f : ℕ → ℚ) : ℚ :=
  ((List.range (nGen d)).map f).sum

/-- D.6.1-D.6.2: generator `rid` is in `constrained_by_downtime`. -/
abbrev downtimeConstrained (d : UCData) (rid : ℕ) : Prop :=
  ∃ p ∈ d.remaining_downtime, p.1 = rid ∧ 0 < p.2

/-- All boolean-declared variables take values in {0, 1}. -/
abbrev BitsC (d : UCData) (a : UCAssign) : Prop :=
  ∀ g, g < nGen d → ∀ t, t < d.lenT →
    isBit (a.COMMIT g t) ∧ isBit (a.START g t) ∧ isBit (a.SHUT g t) ∧
    isBit (a.Rd g t) ∧ isBit (a.Up g t) ∧ isBit (a.St g t)

/-- `CHARGE_MODE` is boolean. -/
abbrev ModeBitsC (d : UCData) (a : UCAssign) : Prop :=
  ∀ t, t < d.lenT → isBit (a.CHARGE_MODE t)

/-- D.1 line 156: supply-demand balance, exact equality. -/
abbrev BalanceC (d : UCData) (a : UCAssign) : Prop :=
  ∀ t, t < d.lenT →
    fleetSum d (fun g => a.GEN g t) + (a.DISCHARGE t - a.CHARGE t) + a.NSE t = d.demand t

/-- D.1 line 157: `NSE >= 0`. -/
abbrev NSEC (d : UCData) (a : UCAssign) : Prop :=
  ∀ t, t < d.lenT → 0 ≤ a.NSE t

/-- D.2.1: thermal dispatch within `[COMMIT * pmin, COMMIT * cap]`. -/
abbrev ThermalCapC (d : UCData) (a : UCAssign) : Prop :=
  ∀ g, g < nGen d → 0 < (genAt d g).up_time → ∀ t, t < d.lenT →
    a.COMMIT g t * pminOf d g ≤ a.GEN g t ∧ a.GEN g t ≤ a.COMMIT g t * capOf d g

/-- D.2.2: variable dispatch bounded by capacity times capacity factor. -/
abbrev VarCapC (d : UCData) (a : UCAssign) : Prop :=
  ∀ g, g < nGen d → (genAt d g).is_variable = 1 → ∀ t, t < d.lenT →
    a.GEN g t ≤ capOf d g * d.cf g t

/-- D.2.3.1: curtailment accounting for variable generators. -/
abbrev VarCurtC (d : UCData) (a : UCAssign) : Prop :=
  ∀ g, g < nGen d → (genAt d g).is_variable = 1 → ∀ t, t < d.lenT →
    a.curtailment g t = capOf d g * d.cf g t - a.GEN g t

/-- D.2.3.2: zero curtailment for thermal and pumped-storage generators. -/
abbrev ZeroCurtC (d : UCData) (a : UCAssign) : Prop :=
  ∀ g, g < nGen d →
    (0 < (genAt d g).up_time ∨ (genAt d g).resource = "hydroelectric_pumped_storage") →
    ∀ t, t < d.lenT → a.curtailment g t = 0

/-- D.2.4: non-negativity and capacity cap for every non-pumped-storage
generator. -/
abbrev NonPhsBoundsC (d : UCData) (a : UCAssign) : Prop :=
  ∀ g, g < nGen d → ¬ (genAt d g).resource = "hydroelectric_pumped_storage" →
    ∀ t, t < d.lenT → 0 ≤ a.GEN g t ∧ a.GEN g t ≤ capOf d g

/-- D.3.1: minimum up time, `COMMIT[i-1, t] >= sum(START[i-1, max(0, t-6):t])`. -/
abbrev MinUpC (d : UCData) (a : UCAssign) : Prop :=
  ∀ g, g < nGen d → 0 < (genAt d g).up_time → ∀ t, t < d.lenT →
    sumRange (fun s => a.START g s) (t - upTimeConst) t ≤ a.COMMIT g t

/-- D.3.2: minimum downtime with the `D_points` span,
`1 - COMMIT[i-1, t] >= sum(SHUT[i-1, max(0, t - dn_time):t])`. -/
abbrev MinDnC (d : UCData) (a : UCAssign) : Prop :=
  ∀ g, g < nGen d → 0 < (genAt d g).up_time → ∀ t, t < d.lenT →
    sumRange (fun s => a.SHUT g s) (((t : ℤ) - dnTimeOf d (g + 1)).toNat) t ≤
      1 - a.COMMIT g t

/-- D.3.3: commitment state bookkeeping at interior hours. -/
abbrev CommitDeltaC (d : UCData) (a : UCAssign) : Prop :=
  ∀ g, g < nGen d → 0 < (genAt d g).up_time → ∀ t, t < d.lenT → 1 ≤ t →
    a.COMMIT g t - a.COMMIT g (t - 1) = a.START g t - a.SHUT g t

/-- D.3.4: non-thermal generators (`up_time == 0`) have no commitment. -/
abbrev NonThermalZeroC (d : UCData) (a : UCAssign) : Prop :=
  ∀ g, g < nGen d → (genAt d g).up_time = 0 → ∀ t, t < d.lenT →
    a.COMMIT g t = 0 ∧ a.START g t = 0 ∧ a.SHUT g t = 0

/-- D.4.1: auxiliary dispatch offset from minimum power. -/
abbrev GenauxC (d : UCData) (a : UCAssign) : Prop :=
  ∀ g, g < nGen d → 0 < (genAt d g).up_time → ∀ t, t < d.lenT →
    a.GENAUX g t = a.GEN g t - a.COMMIT g t * pminOf d g

/-- D.4.2: Big-M ramp-up activation and ramp-up capacity bound, for the
`len(T) - 1` hour steps. -/
abbrev RampUpC (d : UCData) (a : UCAssign) : Prop :=
  ∀ g, g < nGen d → 0 < (genAt d g).up_time → ∀ t, t < d.lenT - 1 →
    1 / 1000 - bigM * (1 - a.Up g t) ≤ a.GENAUX g (t + 1) - a.GENAUX g t ∧
    a.GENAUX g (t + 1) - a.GENAUX g t ≤ rupOf d g * a.Up g t

/-- D.4.3: Big-M ramp-down activation and ramp-down capacity bound, for the
`len(T) - 1` hour steps. -/
abbrev RampDnC (d : UCData) (a : UCAssign) : Prop :=
  ∀ g, g < nGen d → 0 < (genAt d g).up_time → ∀ t, t < d.lenT - 1 →
    1 / 1000 - bigM * (1 - a.Rd g t) ≤ a.GENAUX g t - a.GENAUX g (t + 1) ∧
    a.GENAUX g t - a.GENAUX g (t + 1) ≤ rdnOf d g * a.Rd g t

/-- D.4.4: `Rd + Up + St == COMMIT` for thermal generators. -/
abbrev PartitionC (d : UCData) (a : UCAssign) : Prop :=
  ∀ g, g < nGen d → 0 < (genAt d g).up_time → ∀ t, t < d.lenT →
    a.Rd g t + a.Up g t + a.St g t = a.COMMIT g t

/-- The three constraints appended by D.4.5 for one (generator, t, k):
`St[t+k] >= Rd[t] - Rd[t+1]`, `Up[t+k] <= 1 - (Rd[t] - Rd[t+1])`,
`Rd[t+k] <= 1 - (Rd[t] - Rd[t+1])`. -/
def stableBody (a : UCAssign) (g t k : ℕ) : Prop :=
  a.Rd g t - a.Rd g (t + 1) ≤ a.St g (t + k) ∧
  a.Up g (t + k) ≤ 1 - (a.Rd g t - a.Rd g (t + 1)) ∧
  a.Rd g (t + k) ≤ 1 - (a.Rd g t - a.Rd g (t + 1))

instance (a : UCAssign) (g t k : ℕ) : Decidable (stableBody a g t k) :=
  inferInstanceAs (Decidable (And _ (And _ _)))

/-- D.4.5: minimum stable span after a ramp-down episode ends, exactly as
built: only for `t` in `range(len(T) - PMINSTABLE - 1)` and `k` in
`range(1, PMINSTABLE + 1)`. -/
abbrev StableC (d : UCData) (a : UCAssign) : Prop :=
  ∀ g, g < nGen d → 0 < (genAt d g).up_time →
    ∀ t, t < d.lenT - (pminstableSpan + 1) →
      ∀ k, k < pminstableSpan + 1 → 1 ≤ k → stableBody a g t k

/-- D.4.6: symmetric ramp caps for variable generators, for the `len(T) - 1`
hour steps. -/
abbrev VarRampC (d : UCData) (a : UCAssign) : Prop :=
  ∀ g, g < nGen d → (genAt d g).is_variable = 1 → ∀ t, t < d.lenT - 1 →
    a.GEN g (t + 1) - a.GEN g t ≤ capOf d g ∧ a.GEN g t - a.GEN g (t + 1) ≤ capOf d g

/-- D.5.1: charge and discharge power bounds. -/
abbrev ChargeBoundsC (d : UCData) (a : UCAssign) : Prop :=
  ∀ t, t < d.lenT →
    0 ≤ a.CHARGE t ∧ a.CHARGE t ≤ powerCapacity d ∧
    0 ≤ a.DISCHARGE t ∧ a.DISCHARGE t ≤ powerCapacity d

/-- D.5.2: state-of-charge bounds. -/
abbrev SOCBoundsC (d : UCData) (a : UCAssign) : Prop :=
  ∀ t, t < d.lenT → 0 ≤ a.SOC t ∧ a.SOC t ≤ energyCapacity d

/-- D.5.3: the state-of-charge recurrence at every interior hour. -/
abbrev SOCRecurrenceC (d : UCData) (a : UCAssign) : Prop :=
  ∀ t, t < d.lenT → 1 ≤ t →
    a.SOC t = a.SOC (t - 1) + effPHS * a.CHARGE (t - 1) - a.DISCHARGE (t - 1) / effPHS

/-- D.5.4: charge and discharge forced to zero at the window's final hour. -/
abbrev BoundaryC (d : UCData) (a : UCAssign) : Prop :=
  a.CHARGE (d.lenT - 1) = 0 ∧ a.DISCHARGE (d.lenT - 1) = 0

/-- D.5.4.1: on every window but the first, the initial state-of-charge is
pinned to the transferred value. -/
abbrev SOCTransferC (d : UCData) (a : UCAssign) : Prop :=
  d.first_run = false → a.SOC 0 = d.soc_transfer_last

/-- D.5.5: pumped storage contributes no ordinary dispatch. -/
abbrev PhsGenZeroC (d : UCData) (a : UCAssign) : Prop :=
  ∀ g, g < nGen d → (genAt d g).resource = "hydroelectric_pumped_storage" →
    ∀ t, t < d.lenT → a.GEN g t = 0

/-- D.5.6: the charge-mode boolean gates charge and discharge. -/
abbrev ModeC (d : UCData) (a : UCAssign) : Prop :=
  ∀ t, t < d.lenT →
    a.CHARGE t ≤ a.CHARGE_MODE t * powerCapacity d ∧
    a.DISCHARGE t ≤ (1 - a.CHARGE_MODE t) * powerCapacity d

/-- D.6.1: generators with positive remaining downtime are forced off for the
window's leading hours. -/
abbrev DowntimeC (d : UCData) (a : UCAssign) : Prop :=
  ∀ p ∈ d.remaining_downtime, 0 < p.2 →
    ∀ t, t < min p.2.toNat d.lenT → a.COMMIT (p.1 - 1) t = 0

/-- D.6.2: first-hour commitment continuity with the prior window, unless the
generator is downtime-constrained. -/
abbrev CommitContinuityC (d : UCData) (a : UCAssign) : Prop :=
  ∀ p ∈ d.commit_prev, ¬ downtimeConstrained d p.1 →
    (p.2 : ℚ) - a.SHUT (p.1 - 1) 0 ≤ a.COMMIT (p.1 - 1) 0 ∧
    a.COMMIT (p.1 - 1) 0 ≤ (p.2 : ℚ) + a.START (p.1 - 1) 0

/-- D.6.3: per-hour deadtime-debit bookkeeping. -/
abbrev DynC (d : UCData) (a : UCAssign) : Prop :=
  ∀ g, g < nGen d → ∀ t, t < d.lenT →
    (a.dyn g t : ℚ) = deadtimeValOf d (g + 1) * a.SHUT g t

/-- The full constraint set of `setup_optimization_problem_for_ap1000`
(section D of the source), as a feasibility predicate. -/
abbrev Feasible (d : UCData) (a : UCAssign) : Prop :=
  BitsC d a ∧ ModeBitsC d a ∧ BalanceC d a ∧ NSEC d a ∧ ThermalCapC d a ∧
  VarCapC d a ∧ VarCurtC d a ∧ ZeroCurtC d a ∧ NonPhsBoundsC d a ∧ MinUpC d a ∧
  MinDnC d a ∧ CommitDeltaC d a ∧ NonThermalZeroC d a ∧ GenauxC d a ∧
  RampUpC d a ∧ RampDnC d a ∧ PartitionC d a ∧ StableC d a ∧ VarRampC d a ∧
  ChargeBoundsC d a ∧ SOCBoundsC d a ∧ SOCRecurrenceC d a ∧ BoundaryC d a ∧
  SOCTransferC d a ∧ PhsGenZeroC d a ∧ ModeC d a ∧ DowntimeC d a ∧
  CommitContinuityC d a ∧ DynC d a

/-! ### Part II continued: the builder's input validation

`setup_optimization_problem_for_ap1000` reads every required `gen_df` column
unconditionally while assembling the instance (lines 39-135); in pandas a
missing column raises a KeyError there, before any instance is returned.  For
each variable generator the capacity-factor series taken from
`gen_variable_long` (lines 57-60) is broadcast against a horizon-long variable
row when constraint D.2.2 is appended (lines 166-170); a generator absent from
the table, or present with a series of the wrong length, makes that
construction raise before the instance is returned.  Both failure channels are
embedded as `Except.error`.  The horizon itself is `loads["hour"]` (line 54),
so it is the load table's own hour column. -/

/-- One raw `gen_df` row: the numeric cells keyed by column name, plus the
`resource` and `gen_full` string cells. -/
structure RawGen where
  fields : List (String × ℚ)
  resource : String
  gen_full : String

/-- The numeric `gen_df` columns the builder reads unconditionally. -/
def requiredGenFields : List String :=
  ["r_id", "up_time", "is_variable", "existing_cap_mw", "min_power",
   "ramp_up_percentage", "ramp_dn_percentage", "heat_rate_mmbtu_per_mwh",
   "fuel_cost", "var_om_cost_per_mwh", "start_cost_per_mw", "shut_cost_per_mw"]

/-- The row has a value in the named column. -/
def hasField (r : RawGen) (c : String) : Bool := (r.fields.lookup c).isSome

/-- Some required column is absent from some row of the fleet table. -/
def missingRequiredField (rows : List RawGen) : Bool :=
  requiredGenFields.any (fun c => rows.any (fun r => !(hasField r c)))

/-- The row is a variable generator (`is_variable == 1`). -/
def isVarRow (r : RawGen) : Bool :=
  match r.fields.lookup "is_variable" with
  | some v => decide (v = 1)
  | none => false

/-- The capacity-factor table has a series for the row's `gen_full` covering
exactly the horizon. -/
def cfCovers (cfTable : List (String × List ℚ)) (lenT : ℕ) (r : RawGen) : Bool :=
  match cfTable.lookup r.gen_full with
  | some l => decide (l.length = lenT)
  | none => false

/-- The builder's fallible input reading: a missing required `gen_df` column
fails (pandas KeyError), and a variable generator whose capacity-factor series
does not cover the horizon fails (shape mismatch when D.2.2 is built).  On
success it returns the horizon it will use — the load table's hour column. -/
def setupChecks (rows : List RawGen) (loads : List (ℕ × ℚ))
    (cfTable : List (String × List ℚ)) : Except String (List ℕ) :=
  if missingRequiredField rows then
    Except.error "missing required generator field"
  else if rows.any (fun r => isVarRow r && !(cfCovers cfTable loads.length r)) then
    Except.error "variable capacity factor series does not cover the horizon"
  else
    Except.ok (loads.map Prod.fst)

/-! ### Concrete instances used by witnesses and counterexamples -/

/-- A four-generator fleet: one AP1000 reactor (cap 1000, min power 0.4, ramp
fractions 0.25, thermal), wind and solar (cap 100, variable), and pumped
storage (cap 100). -/
def exGens : List Gen :=
  [⟨"ap1000", 1000, 2/5, 1/4, 1/4, 6, 0⟩,
   ⟨"onshore_wind_turbine", 100, 0, 0, 0, 0, 1⟩,
   ⟨"solar_photovoltaic", 100, 0, 0, 0, 0, 1⟩,
   ⟨"hydroelectric_pumped_storage", 100, 0, 0, 0, 0, 0⟩]

/-- A 13-hour first-run window over `exGens`: demand 500 except 499 at hour 3,
flat capacity factor 1/2, empty `D_points` and `remaining_downtime`, prior
commitment 1 for the reactor and 0 otherwise, pumped-storage duration 4 h
(energy capacity 400). -/
def exData : UCData :=
  { gens := exGens
    lenT := 13
    demand := fun t => if t = 3 then 499 else 500
    cf := fun _ _ => 1/2
    Dpoints := []
    first_run := true
    remaining_downtime := []
    commit_prev := [(1, 1), (2, 0), (3, 0), (4, 0)]
    soc_transfer_last := 0
    PHS_duration := 4 }

/-- A feasible assignment for `exData` in which the reactor ramps down at hour
2 (500 to 499) and immediately ramps back up at hour 3, with the storage idle
at a constant state of charge 400. -/
def exAssign : UCAssign :=
  { GEN := fun g t => if g = 0 then (if t = 3 then 499 else 500) else 0
    GENAUX := fun g t => if g = 0 then (if t = 3 then 99 else 100) else 0
    COMMIT := fun g _ => if g = 0 then 1 else 0
    START := fun _ _ => 0
    SHUT := fun _ _ => 0
    Rd := fun g t => if g = 0 ∧ t = 2 then 1 else 0
    Up := fun g t => if g = 0 ∧ t = 3 then 1 else 0
    St := fun g t => if g = 0 ∧ ¬ t = 2 ∧ ¬ t = 3 then 1 else 0
    curtailment := fun g _ => if g = 1 ∨ g = 2 then 50 else 0
    dyn := fun _ _ => 0
    NSE := fun _ => 0
    SOC := fun _ => 400
    CHARGE := fun _ => 0
    DISCHARGE := fun _ => 0
    CHARGE_MODE := fun _ => 0 }

/-- The same assignment with the storage trajectory at a constant state of
charge 0 instead of 400. -/
def exAssign2 : UCAssign :=
  { exAssign with SOC := fun _ => 0 }

/-- A feasible assignment for `exData` in which the reactor's ramp-down
episode ends at hour 0 (ramp-down 1 at hour 0, 0 at hour 1), so the built
stable-span constraints at `t = 0` bite: stable is 1 on hours 1-10.  The
demand shortfall appears as non-served energy. -/
def exAssignB : UCAssign :=
  { GEN := fun g t => if g = 0 then (if t = 0 then 500 else 499) else 0
    GENAUX := fun g t => if g = 0 then (if t = 0 then 100 else 99) else 0
    COMMIT := fun g _ => if g = 0 then 1 else 0
    START := fun _ _ => 0
    SHUT := fun _ _ => 0
    Rd := fun g t => if g = 0 ∧ t = 0 then 1 else 0
    Up := fun _ _ => 0
    St := fun g t => if g = 0 ∧ ¬ t = 0 then 1 else 0
    curtailment := fun g _ => if g = 1 ∨ g = 2 then 50 else 0
    dyn := fun _ _ => 0
    NSE := fun t => if t = 0 ∨ t = 3 then 0 else 1
    SOC := fun _ => 0
    CHARGE := fun _ => 0
    DISCHARGE := fun _ => 0
    CHARGE_MODE := fun _ => 0 }

/-- Concrete reactor family parameters: two deadtime columns, breakpoints 1
and 1.1 with deadtimes 5 and 3. -/
def Pa : ReactorParams :=
  { m := 1/100
    maxReacRows := [(100, 1/2)]
    deadtimeCols := [(1, 5), (11/10, 3)]
    pmin := 3/10
    refuelSpan := 7
    lenT := 13 }

/-- An active reactor whose `keff` equals the breakpoint 1 exactly. -/
def sEq : ReactorState :=
  ⟨1, 1/2, 0, 0, none, 0, 0, 0⟩

/-- An active reactor with `keff = 1.05`, strictly between the two breakpoints. -/
def sActive : ReactorState :=
  ⟨21/20, 1/2, 0, 0, none, 0, 0, 0⟩

/-- The state produced from `sActive` by `updateStep Pa 0 1000`. -/
def sActiveOut : ReactorState :=
  ⟨21/20, 1/2, 100000/21, 0, some 1, 0, 0, 5⟩

/-- The post-table-stage state with `keff = 1.05`, fed to `lookupStep`. -/
def sMid : ReactorState :=
  ⟨21/20, 1/2, 100000/21, 0, none, 0, 0, 0⟩

/-- The state produced from `sMid` by `lookupStep Pa`. -/
def sMidOut : ReactorState :=
  ⟨21/20, 1/2, 100000/21, 0, some 1, 0, 0, 5⟩

/-- A reactor mid-outage: termination flag 1, countdown 5, physics zeroed. -/
def sPend : ReactorState :=
  ⟨0, 0, 0, 0, none, 1, 5, 3⟩

/-- The state produced from `sPend` by `updateStep Pa 0 1000`. -/
def sPendOut : ReactorState :=
  ⟨0, 0, 0, 0, some (11/10), 1, 4, 3⟩

/-- An active reactor with `keff = 0.5`, below every tabulated breakpoint. -/
def sLow : ReactorState :=
  ⟨1/2, 1/2, 0, 0, none, 0, 0, 0⟩

/-- The state produced from `sLow` by `updateStep Pa 0 1000`. -/
def sLowOut : ReactorState :=
  ⟨0, 0, 0, 0, some (11/10), 1, 7, 3⟩

/-- A fleet-table row set missing the `min_power` column on its second row. -/
def exRawRows : List RawGen :=
  [⟨[("r_id", 1), ("up_time", 6), ("is_variable", 0), ("existing_cap_mw", 1000),
     ("min_power", 2/5), ("ramp_up_percentage", 1/4), ("ramp_dn_percentage", 1/4),
     ("heat_rate_mmbtu_per_mwh", 10), ("fuel_cost", 1), ("var_om_cost_per_mwh", 2),
     ("start_cost_per_mw", 50), ("shut_cost_per_mw", 50)], "ap1000", "ap1000_unit_1"⟩,
   ⟨[("r_id", 2), ("up_time", 0), ("is_variable", 1), ("existing_cap_mw", 100),
     ("ramp_up_percentage", 0), ("ramp_dn_percentage", 0),
     ("heat_rate_mmbtu_per_mwh", 0), ("fuel_cost", 0), ("var_om_cost_per_mwh", 0),
     ("start_cost_per_mw", 0), ("shut_cost_per_mw", 0)], "onshore_wind_turbine", "wind_1"⟩]

/-- A two-hour load table. -/
def exLoads : List (ℕ × ℚ) := [(0, 500), (1, 500)]

/-- A capacity-factor table whose only series has the wrong length. -/
def exCfTable : List (String × List ℚ) := [("wind_1", [1/2])]

/-! ### Helper lemmas -/

theorem foldl_max_init_le (xs : List ℚ) (a : ℚ) : a ≤ xs.foldl max a := by
  induction xs generalizing a with
  | nil => exact le_refl a
  | cons x xs ih => exact le_trans (le_max_left a x) (ih (max a x))

theorem mem_le_foldl_max (xs : List ℚ) (a x : ℚ) (hx : x ∈ xs) :
    x ≤ xs.foldl max a := by
  induction xs generalizing a with
  | nil => cases hx
  | cons y ys ih =>
    rcases List.mem_cons.mp hx with h | h
    · subst h
      exact le_trans (le_max_right a x) (foldl_max_init_le ys (max a x))
    · exact ih (max a y) h

theorem foldl_max_mem (xs : List ℚ) (a : ℚ) :
    xs.foldl max a = a ∨ xs.foldl max a ∈ xs := by
  induction xs generalizing a with
  | nil => exact Or.inl rfl
  | cons y ys ih =>
    rcases ih (max a y) with h | h
    · rcases max_choice a y with hm | hm
      · exact Or.inl (by rw [List.foldl_cons, h, hm])
      · exact Or.inr (by rw [List.foldl_cons, h, hm]; exact List.mem_cons_self y ys)
    · exact Or.inr (List.mem_cons_of_mem y h)

theorem listMaxD_mem (l : List ℚ) (h : l ≠ []) : listMaxD l ∈ l := by
  cases l with
  | nil => exact absurd rfl h
  | cons x xs =>
    rcases foldl_max_mem xs x with hm | hm
    · rw [listMaxD, hm]; exact List.mem_cons_self x xs
    · exact List.mem_cons_of_mem x hm

theorem le_listMaxD (l : List ℚ) (x : ℚ) (hx : x ∈ l) : x ≤ listMaxD l := by
  cases l with
  | nil => cases hx
  | cons y ys =>
    rcases List.mem_cons.mp hx with h | h
    · subst h; exact foldl_max_init_le ys x
    · exact mem_le_foldl_max ys y x h

theorem mem_kvalsOf (cols : List (ℚ × ℤ)) (keff q : ℚ) :
    q ∈ kvalsOf cols keff ↔ q ∈ cols.map Prod.fst ∧ q < keff := by
  unfold kvalsOf
  constructor
  · intro hq
    rcases List.mem_map.mp hq with ⟨c, hc, hcq⟩
    have hmem := List.mem_filter.mp hc
    refine ⟨List.mem_map.mpr ⟨c, hmem.1, hcq⟩, ?_⟩
    have := of_decide_eq_true hmem.2
    rw [← hcq]; exact this
  · rintro ⟨hq, hlt⟩
    rcases List.mem_map.mp hq with ⟨c, hc, hcq⟩
    refine List.mem_map.mpr ⟨c, List.mem_filter.mpr ⟨hc, ?_⟩, hcq⟩
    exact decide_eq_true (by rw [hcq]; exact hlt)

theorem kvalsOf_eq_nil_iff (cols : List (ℚ × ℤ)) (keff : ℚ) :
    kvalsOf cols keff = [] ↔ ∀ q ∈ cols.map Prod.fst, ¬ q < keff := by
  constructor
  · intro h q hq hlt
    have : q ∈ kvalsOf cols keff := (mem_kvalsOf cols keff q).mpr ⟨hq, hlt⟩
    rw [h] at this
    cases this
  · intro h
    cases hk : kvalsOf cols keff with
    | nil => rfl
    | cons x xs =>
      have hx : x ∈ kvalsOf cols keff := by rw [hk]; exact List.mem_cons_self x xs
      have := (mem_kvalsOf cols keff x).mp hx
      exact absurd this.2 (h x this.1)

theorem dtLookup_eq_some (cols : List (ℚ × ℤ)) (k : ℚ) (dv : ℤ)
    (h : dtLookup cols k = some dv) : ∃ c ∈ cols, c.1 = k ∧ c.2 = dv := by
  unfold dtLookup at h
  cases hf : cols.find? (fun c => decide (c.1 = k)) with
  | none => rw [hf] at h; cases h
  | some c =>
    rw [hf] at h
    refine ⟨c, List.mem_of_find?_eq_some hf, ?_, ?_⟩
    · have hp := List.find?_some hf
      simpa using hp
    · simpa using h

theorem eq_of_fst_eq_of_nodup {l : List (ℚ × ℤ)} (h : (l.map Prod.fst).Nodup)
    {a b : ℚ × ℤ} (ha : a ∈ l) (hb : b ∈ l) (hfst : a.1 = b.1) : a = b := by
  induction l with
  | nil => cases ha
  | cons x xs ih =>
    rw [List.map_cons, List.nodup_cons] at h
    rcases List.mem_cons.mp ha with h1 | h1 <;> rcases List.mem_cons.mp hb with h2 | h2
    · rw [h1, h2]
    · exfalso
      exact h.1 (by rw [← h1, hfst]; exact List.mem_map.mpr ⟨b, h2, rfl⟩)
    · exfalso
      exact h.1 (by rw [← h2, ← hfst]; exact List.mem_map.mpr ⟨a, h1, rfl⟩)
    · exact ih h.2 h1 h2

theorem mem_of_getLast?_eq_some {l : List (ℚ × ℤ)} {c : ℚ × ℤ}
    (h : l.getLast? = some c) : c ∈ l := by
  cases l with
  | nil => cases h
  | cons x xs =>
    rw [List.getLast?_eq_getLast (x :: xs) (by simp)] at h
    have := List.getLast_mem (l := x :: xs) (by simp)
    rwa [Option.some_inj.mp h] at this

theorem preStep_shutdown (P : ReactorParams) (tg cap : ℚ) (s : ReactorState)
    (h : 0 < decSpan s) :
    preStep P tg cap s =
      { s with keff := 0, p0 := 0, reacValue := 0, alpha := 0,
               nearestK := none, spanRemaining := decSpan s } := by
  unfold preStep
  rw [if_pos h]

theorem preStep_reset (P : ReactorParams) (tg cap : ℚ) (s : ReactorState)
    (h1 : decSpan s = 0) (h2 : s.terminationCondition = 1) :
    preStep P tg cap s =
      { s with keff := 1.205, p0 := 0, alpha := 0, reacValue := reacOf 1.205,
               nearestK := none, spanRemaining := decSpan s,
               terminationCondition := 0 } := by
  unfold preStep
  rw [if_neg (by rw [h1]; exact lt_irrefl 0), if_pos ⟨h1, h2⟩]

theorem preStep_active (P : ReactorParams) (tg cap : ℚ) (s : ReactorState)
    (h1 : ¬ 0 < decSpan s) (h2 : ¬ (decSpan s = 0 ∧ s.terminationCondition = 1)) :
    preStep P tg cap s =
      { s with keff := depletedKeff P tg cap s,
               p0 := p0Of P (reacOf (depletedKeff P tg cap s)),
               reacValue := reacOf (depletedKeff P tg cap s),
               alpha := alphaOf P tg cap,
               nearestK := none, spanRemaining := decSpan s } := by
  unfold preStep
  rw [if_neg h1, if_neg h2]

theorem lookupStep_found (P : ReactorParams) (s s1 : ReactorState)
    (h : lookupStep P s = some s1)
    (hk : ¬ kvalsOf P.deadtimeCols s.keff = []) :
    ∃ dv, dtLookup P.deadtimeCols (listMaxD (kvalsOf P.deadtimeCols s.keff)) = some dv ∧
      s1 = { s with nearestK := some (listMaxD (kvalsOf P.deadtimeCols s.keff)),
                    deadtimeValue := dv } := by
  unfold lookupStep at h
  rw [if_neg hk] at h
  cases hd : dtLookup P.deadtimeCols (listMaxD (kvalsOf P.deadtimeCols s.keff)) with
  | none => rw [hd] at h; cases h
  | some dv =>
    rw [hd] at h
    exact ⟨dv, rfl, (Option.some_inj.mp h).symm⟩

theorem lookupStep_trigger (P : ReactorParams) (s s1 : ReactorState)
    (h : lookupStep P s = some s1)
    (hk : kvalsOf P.deadtimeCols s.keff = [])
    (hf : s.terminationCondition = 0) :
    ∃ dv, dtLookup P.deadtimeCols (lastColKey P.deadtimeCols) = some dv ∧
      s1 = { s with terminationCondition := 1, spanRemaining := P.refuelSpan,
                    keff := 0, p0 := 0, reacValue := 0, alpha := 0,
                    nearestK := some (lastColKey P.deadtimeCols), deadtimeValue := dv } := by
  unfold lookupStep at h
  rw [if_pos hk] at h
  split at h
  next => cases h
  next dv heq =>
    rw [if_pos hf] at h
    exact ⟨dv, heq, (Option.some_inj.mp h).symm⟩

theorem lookupStep_pending (P : ReactorParams) (s s1 : ReactorState)
    (h : lookupStep P s = some s1)
    (hk : kvalsOf P.deadtimeCols s.keff = [])
    (hf : ¬ s.terminationCondition = 0) :
    ∃ dv, dtLookup P.deadtimeCols (lastColKey P.deadtimeCols) = some dv ∧
      s1 = { s with nearestK := some (lastColKey P.deadtimeCols), deadtimeValue := dv } := by
  unfold lookupStep at h
  rw [if_pos hk] at h
  split at h
  next => cases h
  next dv heq =>
    rw [if_neg hf] at h
    exact ⟨dv, heq, (Option.some_inj.mp h).symm⟩

attribute [local semireducible] Rat.mul Rat.add Rat.sub Rat.inv Rat.ofScientific

set_option synthInstance.maxSize 4096

/-! ### Claim C1 -/

/-- C1, counterexample.  The claim says the selected `nearest_k` is the
greatest tabulated breakpoint not exceeding `keff`, with a breakpoint exactly
equal to `keff` eligible, and that the outage branch triggers only when no such
breakpoint exists.  Here the table has breakpoints 1 and 1.1 and the reactor
sits at `keff = 1` with nothing dispatched, so breakpoint 1 equals `keff` and
the claim predicts `nearest_k = 1` with no outage.  The code instead uses the
strict comparison `float(col) < keff`, finds nothing, enters the outage branch
(termination flag set to 1) and records `nearest_k = 1.1`, the table's last
column. -/
theorem C1_counterexample :
    (updateStep Pa 0 1000 sEq).map
        (fun s => (s.nearestK, s.terminationCondition)) = some (some (11/10), 1) ∧
    (1 : ℚ) ∈ Pa.deadtimeCols.map Prod.fst ∧ (1 : ℚ) ≤ sEq.keff := by
  decide

/-- C1 (amended): for every reactor processed by the deadtime-table lookup,
the selected `nearest_k` is the greatest tabulated breakpoint strictly less
than the reactor's `keff` at lookup time — a breakpoint exactly equal to `keff`
is not eligible — and the outage-scheduling branch triggers exactly when no
breakpoint lies strictly below `keff` (and then only with no outage already
pending). -/
theorem C1_amended (P : ReactorParams) (s s1 : ReactorState)
    (h : lookupStep P s = some s1) :
    ((∃ q ∈ P.deadtimeCols.map Prod.fst, q < s.keff) →
      ∃ mx, s1.nearestK = some mx ∧ mx ∈ P.deadtimeCols.map Prod.fst ∧
        mx < s.keff ∧ (∀ q ∈ P.deadtimeCols.map Prod.fst, q < s.keff → q ≤ mx) ∧
        s1.terminationCondition = s.terminationCondition ∧
        s1.spanRemaining = s.spanRemaining ∧ s1.keff = s.keff) ∧
    ((∀ q ∈ P.deadtimeCols.map Prod.fst, ¬ q < s.keff) → s.terminationCondition = 0 →
      s1.terminationCondition = 1 ∧ s1.spanRemaining = P.refuelSpan ∧ s1.keff = 0) := by
  constructor
  · rintro ⟨q, hq, hlt⟩
    have hk : ¬ kvalsOf P.deadtimeCols s.keff = [] := by
      intro hnil
      exact (kvalsOf_eq_nil_iff _ _).mp hnil q hq hlt
    obtain ⟨dv, hdv, hs1⟩ := lookupStep_found P s s1 h hk
    have hmem : listMaxD (kvalsOf P.deadtimeCols s.keff) ∈ kvalsOf P.deadtimeCols s.keff :=
      listMaxD_mem _ hk
    have hmem2 := (mem_kvalsOf _ _ _).mp hmem
    refine ⟨listMaxD (kvalsOf P.deadtimeCols s.keff), ?_, hmem2.1, hmem2.2, ?_, ?_, ?_, ?_⟩
    · rw [hs1]
    · intro q2 hq2 hlt2
      exact le_listMaxD _ _ ((mem_kvalsOf _ _ _).mpr ⟨hq2, hlt2⟩)
    · rw [hs1]
    · rw [hs1]
    · rw [hs1]
  · intro hnone hflag
    have hk : kvalsOf P.deadtimeCols s.keff = [] := (kvalsOf_eq_nil_iff _ _).mpr hnone
    obtain ⟨dv, hdv, hs1⟩ := lookupStep_trigger P s s1 h hk hflag
    rw [hs1]
    exact ⟨rfl, rfl, rfl⟩

/-- C1, witness: a reactor at `keff = 1.05` over the table with breakpoints 1
and 1.1 selects `nearest_k = 1`, the greatest breakpoint strictly below
`keff`, and neither the termination flag nor the countdown changes. -/
theorem C1_witness :
    lookupStep Pa sMid = some sMidOut ∧
    ∃ mx, sMidOut.nearestK = some mx ∧ mx ∈ Pa.deadtimeCols.map Prod.fst ∧
      mx < sMid.keff ∧ (∀ q ∈ Pa.deadtimeCols.map Prod.fst, q < sMid.keff → q ≤ mx) ∧
      sMidOut.terminationCondition = sMid.terminationCondition ∧
      sMidOut.spanRemaining = sMid.spanRemaining ∧ sMidOut.keff = sMid.keff :=
  ⟨by decide, (C1_amended Pa sMid sMidOut (by decide)).1 (by decide)⟩

/-! ### Claim C3 -/

/-- C3: across consecutive active windows (no outage pending, none triggered),
the updater never increases `keff`: the new `keff` is the depleted value
`keff - m * alpha`, which does not exceed the old one when the burnup
coefficient, the dispatched energy and the capacity are non-negative.  `keff`
is written back to the fixed initial value 1.205 exactly at a step whose
decremented countdown is zero with the termination flag set (the flag then
clears, so the reset happens once per outage episode); at any other step the
new `keff` is either the depleted value or the zeroed value 0, never the
initial value by reset. -/
theorem C3_keff_invariant (P : ReactorParams) (tg cap : ℚ) (s s1 : ReactorState)
    (h : updateStep P tg cap s = some s1) :
    ((0 ≤ P.m) → (0 ≤ tg) → (0 ≤ cap) → s.terminationCondition = 0 →
      s.spanRemaining ≤ 0 →
      (∃ q ∈ P.deadtimeCols.map Prod.fst, q < depletedKeff P tg cap s) →
      s1.keff = depletedKeff P tg cap s ∧ s1.keff ≤ s.keff ∧
        s1.terminationCondition = 0) ∧
    (decSpan s = 0 → s.terminationCondition = 1 →
      (∃ q ∈ P.deadtimeCols.map Prod.fst, q < 1.205) →
      s1.keff = 1.205 ∧ s1.terminationCondition = 0 ∧ s1.alpha = 0 ∧ s1.p0 = 0) ∧
    (¬ (decSpan s = 0 ∧ s.terminationCondition = 1) →
      s1.keff = depletedKeff P tg cap s ∨ s1.keff = 0) := by
  unfold updateStep at h
  refine ⟨?_, ?_, ?_⟩
  · intro hm htg hcap hflag hspan hex
    have hdec : decSpan s = s.spanRemaining := by
      unfold decSpan
      rw [if_pos hspan]
    have h1 : ¬ 0 < decSpan s := by
      rw [hdec]
      omega
    have h2 : ¬ (decSpan s = 0 ∧ s.terminationCondition = 1) := by
      intro hc
      rw [hflag] at hc
      exact absurd hc.2 (by decide)
    rw [preStep_active P tg cap s h1 h2] at h
    have hk : ¬ kvalsOf P.deadtimeCols (depletedKeff P tg cap s) = [] := by
      intro hnil
      obtain ⟨q, hq, hlt⟩ := hex
      exact (kvalsOf_eq_nil_iff _ _).mp hnil q hq hlt
    obtain ⟨dv, hdv, hs1⟩ := lookupStep_found P _ s1 h hk
    have halpha : 0 ≤ alphaOf P tg cap := by
      unfold alphaOf
      exact div_nonneg htg (mul_nonneg hcap (Nat.cast_nonneg _))
    refine ⟨by rw [hs1], ?_, by rw [hs1]; exact hflag⟩
    rw [hs1]
    show depletedKeff P tg cap s ≤ s.keff
    unfold depletedKeff
    exact sub_le_self _ (mul_nonneg hm halpha)
  · intro hdec0 hflag hex
    have h1 : ¬ 0 < decSpan s := by
      rw [hdec0]
      exact lt_irrefl 0
    rw [preStep_reset P tg cap s hdec0 hflag] at h
    have hk : ¬ kvalsOf P.deadtimeCols (1.205 : ℚ) = [] := by
      intro hnil
      obtain ⟨q, hq, hlt⟩ := hex
      exact (kvalsOf_eq_nil_iff _ _).mp hnil q hq hlt
    obtain ⟨dv, hdv, hs1⟩ := lookupStep_found P _ s1 h hk
    exact ⟨by rw [hs1], by rw [hs1], by rw [hs1], by rw [hs1]⟩
  · intro hnr
    by_cases hpos : 0 < decSpan s
    · rw [preStep_shutdown P tg cap s hpos] at h
      by_cases hkv : kvalsOf P.deadtimeCols (0 : ℚ) = []
      · by_cases hfl : s.terminationCondition = 0
        · obtain ⟨dv, hdv, hs1⟩ := lookupStep_trigger P _ s1 h hkv hfl
          exact Or.inr (by rw [hs1])
        · obtain ⟨dv, hdv, hs1⟩ := lookupStep_pending P _ s1 h hkv hfl
          exact Or.inr (by rw [hs1])
      · obtain ⟨dv, hdv, hs1⟩ := lookupStep_found P _ s1 h hkv
        exact Or.inr (by rw [hs1])
    · rw [preStep_active P tg cap s hpos hnr] at h
      by_cases hkv : kvalsOf P.deadtimeCols (depletedKeff P tg cap s) = []
      · by_cases hfl : s.terminationCondition = 0
        · obtain ⟨dv, hdv, hs1⟩ := lookupStep_trigger P _ s1 h hkv hfl
          exact Or.inr (by rw [hs1])
        · obtain ⟨dv, hdv, hs1⟩ := lookupStep_pending P _ s1 h hkv hfl
          exact Or.inl (by rw [hs1])
      · obtain ⟨dv, hdv, hs1⟩ := lookupStep_found P _ s1 h hkv
        exact Or.inl (by rw [hs1])

/-- C3, witness: an active reactor at `keff = 1.05` with nothing dispatched
keeps `keff` unchanged (depletion by `m * 0`), stays at or below its previous
`keff`, and keeps its termination flag clear. -/
theorem C3_witness :
    updateStep Pa 0 1000 sActive = some sActiveOut ∧
    sActiveOut.keff = depletedKeff Pa 0 1000 sActive ∧
    sActiveOut.keff ≤ sActive.keff ∧ sActiveOut.terminationCondition = 0 :=
  ⟨by decide,
   (C3_keff_invariant Pa 0 1000 sActive sActiveOut (by decide)).1
     (by decide) (by decide) (by decide) (by decide) (by decide) (by decide)⟩

/-! ### Claim C7 -/

/-- C7: for a reactor whose termination flag is already set with at least two
countdown hours remaining (an outage pending that does not complete this
window), the updater does not schedule a second outage: the flag stays 1, the
countdown is just decremented by one — never re-initialised to `refuel_span` —
and the physics stays zeroed. -/
theorem C7_idempotent (P : ReactorParams) (tg cap : ℚ) (s s1 : ReactorState)
    (h : updateStep P tg cap s = some s1)
    (hflag : s.terminationCondition = 1) (hspan : 2 ≤ s.spanRemaining) :
    s1.terminationCondition = 1 ∧ s1.spanRemaining = s.spanRemaining - 1 ∧
    s1.keff = 0 := by
  unfold updateStep at h
  have hdec : decSpan s = s.spanRemaining - 1 := by
    unfold decSpan
    rw [if_neg (by omega)]
  have hpos : 0 < decSpan s := by
    rw [hdec]
    omega
  rw [preStep_shutdown P tg cap s hpos] at h
  by_cases hkv : kvalsOf P.deadtimeCols (0 : ℚ) = []
  · have hfl : ¬ s.terminationCondition = 0 := by
      rw [hflag]
      decide
    obtain ⟨dv, hdv, hs1⟩ := lookupStep_pending P _ s1 h hkv hfl
    refine ⟨by rw [hs1]; exact hflag, ?_, by rw [hs1]⟩
    rw [hs1]
    show decSpan s = s.spanRemaining - 1
    exact hdec
  · obtain ⟨dv, hdv, hs1⟩ := lookupStep_found P _ s1 h hkv
    refine ⟨by rw [hs1]; exact hflag, ?_, by rw [hs1]⟩
    rw [hs1]
    show decSpan s = s.spanRemaining - 1
    exact hdec

/-- C7, witness: a pending reactor (flag 1, countdown 5) comes out of the
update still pending with countdown 4 and `keff` zero. -/
theorem C7_witness :
    updateStep Pa 0 1000 sPend = some sPendOut ∧
    sPendOut.terminationCondition = 1 ∧
    sPendOut.spanRemaining = sPend.spanRemaining - 1 ∧ sPendOut.keff = 0 :=
  ⟨by decide,
   C7_idempotent Pa 0 1000 sPend sPendOut (by decide) (by decide) (by decide)⟩

/-! ### Claim C10 -/

/-- C10: when an active reactor's depleted `keff` at lookup time lies at or
below every tabulated breakpoint (the outage-trigger branch), the same call
that schedules the outage (flag 1, countdown `refuel_span`) and zeroes the
physics fields also assigns `nearest_k` from the table's last column and
writes that column's deadtime value into the reactor's deadtime assignment. -/
theorem C10_trigger_deadtime (P : ReactorParams) (tg cap : ℚ) (s s1 : ReactorState)
    (h : updateStep P tg cap s = some s1)
    (hflag : s.terminationCondition = 0) (hspan : s.spanRemaining ≤ 0)
    (hnone : ∀ q ∈ P.deadtimeCols.map Prod.fst, ¬ q < depletedKeff P tg cap s)
    (hnodup : (P.deadtimeCols.map Prod.fst).Nodup)
    (hne : P.deadtimeCols ≠ []) :
    ∃ c, P.deadtimeCols.getLast? = some c ∧ s1.nearestK = some c.1 ∧
      s1.deadtimeValue = c.2 ∧ s1.terminationCondition = 1 ∧
      s1.spanRemaining = P.refuelSpan ∧ s1.keff = 0 ∧ s1.p0 = 0 ∧
      s1.reacValue = 0 ∧ s1.alpha = 0 := by
  unfold updateStep at h
  have hdec : decSpan s = s.spanRemaining := by
    unfold decSpan
    rw [if_pos hspan]
  have h1 : ¬ 0 < decSpan s := by
    rw [hdec]
    omega
  have h2 : ¬ (decSpan s = 0 ∧ s.terminationCondition = 1) := by
    intro hc
    rw [hflag] at hc
    exact absurd hc.2 (by decide)
  rw [preStep_active P tg cap s h1 h2] at h
  have hkv : kvalsOf P.deadtimeCols (depletedKeff P tg cap s) = [] :=
    (kvalsOf_eq_nil_iff _ _).mpr hnone
  obtain ⟨dv, hdv, hs1⟩ := lookupStep_trigger P _ s1 h hkv hflag
  cases hc : P.deadtimeCols.getLast? with
  | none =>
    exfalso
    cases hl : P.deadtimeCols with
    | nil => exact hne hl
    | cons x xs =>
      rw [hl, List.getLast?_eq_getLast (x :: xs) (by simp)] at hc
      cases hc
  | some c =>
    have hlast : lastColKey P.deadtimeCols = c.1 := by
      unfold lastColKey
      rw [hc]
    obtain ⟨c2, hc2mem, hc2fst, hc2snd⟩ := dtLookup_eq_some _ _ _ hdv
    have hcmem : c ∈ P.deadtimeCols := mem_of_getLast?_eq_some hc
    have hceq : c2 = c := by
      apply eq_of_fst_eq_of_nodup hnodup hc2mem hcmem
      rw [hc2fst, hlast]
    refine ⟨c, rfl, ?_, ?_, ?_, ?_, ?_, ?_, ?_, ?_⟩
    · rw [hs1, ← hlast]
    · rw [hs1]
      show dv = c.2
      rw [← hc2snd, hceq]
    · rw [hs1]
    · rw [hs1]
    · rw [hs1]
    · rw [hs1]
    · rw [hs1]
    · rw [hs1]

/-- C10, witness: a reactor at `keff = 0.5`, below both breakpoints, leaves
the update with the outage scheduled (flag 1, countdown 7), physics zeroed,
`nearest_k = 1.1` (the table's last column) and deadtime value 3 (that
column's entry). -/
theorem C10_witness :
    updateStep Pa 0 1000 sLow = some sLowOut ∧
    ∃ c, Pa.deadtimeCols.getLast? = some c ∧ sLowOut.nearestK = some c.1 ∧
      sLowOut.deadtimeValue = c.2 ∧ sLowOut.terminationCondition = 1 ∧
      sLowOut.spanRemaining = Pa.refuelSpan ∧ sLowOut.keff = 0 ∧ sLowOut.p0 = 0 ∧
      sLowOut.reacValue = 0 ∧ sLowOut.alpha = 0 :=
  ⟨by decide,
   C10_trigger_deadtime Pa 0 1000 sLow sLowOut (by decide) (by decide) (by decide)
     (by decide) (by decide) (by decide)⟩

/-! ### Feasibility of the concrete assignments -/

theorem exFeasible : Feasible exData exAssign := by decide

theorem exFeasible2 : Feasible exData exAssign2 := by decide

theorem exFeasibleB : Feasible exData exAssignB := by decide

/-- Case split on three boolean indicators with a partition equation. -/
theorem bit_partition (r u st c : ℚ) (hr : isBit r) (hu : isBit u) (hs : isBit st)
    (hsum : r + u + st = c) :
    (c = 1 → (r = 1 ∧ u = 0 ∧ st = 0) ∨ (r = 0 ∧ u = 1 ∧ st = 0) ∨
      (r = 0 ∧ u = 0 ∧ st = 1)) ∧
    (c = 0 → r = 0 ∧ u = 0 ∧ st = 0) := by
  rcases hr with h1 | h1 <;> rcases hu with h2 | h2 <;> rcases hs with h3 | h3 <;>
    subst h1 <;> subst h2 <;> subst h3 <;>
    refine ⟨fun hc => ?_, fun hc => ?_⟩ <;> rw [← hsum] at hc <;>
    first
      | exact absurd hc (by decide)
      | decide

/-! ### Claim C5 -/

/-- C5: in every feasible assignment of the built problem, at every hour the
dispatch summed over all generators plus (discharge minus charge) plus
non-served energy equals demand exactly, and non-served energy is bounded
below by zero. -/
theorem C5_power_balance (d : UCData) (a : UCAssign) (hf : Feasible d a) :
    ∀ t, t < d.lenT →
      fleetSum d (fun g => a.GEN g t) + (a.DISCHARGE t - a.CHARGE t) + a.NSE t =
        d.demand t ∧ 0 ≤ a.NSE t := by
  obtain ⟨hbits, hmode, hbal, hnse, hrest⟩ := hf
  exact fun t ht => ⟨hbal t ht, hnse t ht⟩

/-- C5, witness: the balance and the non-served-energy bound at hour 0 of the
concrete feasible assignment. -/
theorem C5_witness :
    fleetSum exData (fun g => exAssign.GEN g 0) +
      (exAssign.DISCHARGE 0 - exAssign.CHARGE 0) + exAssign.NSE 0 = exData.demand 0 ∧
    0 ≤ exAssign.NSE 0 :=
  C5_power_balance exData exAssign exFeasible 0 (by decide)

/-! ### Claim C6 -/

/-- C6: in every feasible assignment, for every thermal generator and hour the
ramp-down, ramp-up and stable indicators sum to the commitment indicator;
while committed exactly one of the three is 1, and while uncommitted all three
are 0. -/
theorem C6_indicator_partition (d : UCData) (a : UCAssign) (hf : Feasible d a) :
    ∀ g, g < nGen d → 0 < (genAt d g).up_time → ∀ t, t < d.lenT →
      a.Rd g t + a.Up g t + a.St g t = a.COMMIT g t ∧
      (a.COMMIT g t = 1 →
        (a.Rd g t = 1 ∧ a.Up g t = 0 ∧ a.St g t = 0) ∨
        (a.Rd g t = 0 ∧ a.Up g t = 1 ∧ a.St g t = 0) ∨
        (a.Rd g t = 0 ∧ a.Up g t = 0 ∧ a.St g t = 1)) ∧
      (a.COMMIT g t = 0 → a.Rd g t = 0 ∧ a.Up g t = 0 ∧ a.St g t = 0) := by
  intro g hg hth t ht
  obtain ⟨hbits, hmode, hbal, hnse, hcap, hvcap, hvcurt, hzcurt, hnph, hup, hdn,
    hdelta, hntz, haux, hru, hrd, hpart, hrest⟩ := hf
  obtain ⟨hC, hS, hH, hRd, hUp, hSt⟩ := hbits g hg t ht
  have hsum := hpart g hg hth t ht
  have hbp := bit_partition _ _ _ _ hRd hUp hSt hsum
  exact ⟨hsum, hbp.1, hbp.2⟩

/-- C6, witness: the indicator partition at the concrete assignment's
ramp-down hour (generator 0, hour 2). -/
theorem C6_witness :
    exAssign.Rd 0 2 + exAssign.Up 0 2 + exAssign.St 0 2 = exAssign.COMMIT 0 2 ∧
    (exAssign.COMMIT 0 2 = 1 →
      (exAssign.Rd 0 2 = 1 ∧ exAssign.Up 0 2 = 0 ∧ exAssign.St 0 2 = 0) ∨
      (exAssign.Rd 0 2 = 0 ∧ exAssign.Up 0 2 = 1 ∧ exAssign.St 0 2 = 0) ∨
      (exAssign.Rd 0 2 = 0 ∧ exAssign.Up 0 2 = 0 ∧ exAssign.St 0 2 = 1)) ∧
    (exAssign.COMMIT 0 2 = 0 →
      exAssign.Rd 0 2 = 0 ∧ exAssign.Up 0 2 = 0 ∧ exAssign.St 0 2 = 0) :=
  C6_indicator_partition exData exAssign exFeasible 0 (by decide) (by decide) 2 (by decide)

/-! ### Claim C2 -/

/-- C2, counterexample.  The claim says the forced-stable span follows every
ramp-down 1-to-0 transition anywhere in the horizon.  In this feasible
assignment of the 13-hour window, the thermal generator's ramp-down indicator
transitions from 1 (hour 2) to 0 (hour 3), all ten following hours lie inside
the horizon (2 + 10 < 13), yet the stable indicator at hour 3 is 0 (the unit
ramps straight back up): the built constraints only cover transition hours
`t < len(T) - PMINSTABLE - 1 = 2`, so the transition at hour 2 is
unconstrained. -/
theorem C2_counterexample :
    Feasible exData exAssign ∧ 0 < (genAt exData 0).up_time ∧
    exAssign.Rd 0 2 = 1 ∧ exAssign.Rd 0 3 = 0 ∧
    2 + pminstableSpan < exData.lenT ∧ exAssign.St 0 3 = 0 :=
  ⟨exFeasible, by decide, by decide, by decide, by decide, by decide⟩

/-- C2 (amended): in every feasible assignment, for every thermal generator,
the forced-stable span holds for ramp-down 1-to-0 transitions at hours
`t < len(T) - (PMINSTABLE + 1)` only: for such `t`, each of the following
`PMINSTABLE` hours has the stable indicator forced to 1 and both ramp
indicators forced to 0.  Transitions in the final `PMINSTABLE + 1` hours of
the window are not constrained, even when all following hours lie inside the
horizon. -/
theorem C2_min_stable (d : UCData) (a : UCAssign) (hf : Feasible d a) :
    ∀ g, g < nGen d → 0 < (genAt d g).up_time →
      ∀ t, t < d.lenT - (pminstableSpan + 1) →
        a.Rd g t = 1 → a.Rd g (t + 1) = 0 →
        ∀ k, 1 ≤ k → k ≤ pminstableSpan →
          a.St g (t + k) = 1 ∧ a.Up g (t + k) = 0 ∧ a.Rd g (t + k) = 0 := by
  intro g hg hth t ht h1 h0 k hk1 hk2
  obtain ⟨hbits, hmode, hbal, hnse, hcap, hvcap, hvcurt, hzcurt, hnph, hup, hdn,
    hdelta, hntz, haux, hru, hrd, hpart, hstab, hrest⟩ := hf
  have ht11 : t < d.lenT - 11 := ht
  have hk10 : k ≤ 10 := hk2
  have hs := hstab g hg hth t ht k (by omega) hk1
  unfold stableBody at hs
  obtain ⟨hA, hB, hC⟩ := hs
  rw [h1, h0] at hA hB hC
  have htk : t + k < d.lenT := by omega
  obtain ⟨hCb, hSb, hHb, hRdb, hUpb, hStb⟩ := hbits g hg (t + k) htk
  refine ⟨?_, ?_, ?_⟩
  · rcases hStb with hb | hb
    · exfalso
      rw [hb] at hA
      norm_num at hA
    · exact hb
  · rcases hUpb with hb | hb
    · exact hb
    · exfalso
      rw [hb] at hB
      norm_num at hB
  · rcases hRdb with hb | hb
    · exact hb
    · exfalso
      rw [hb] at hC
      norm_num at hC

/-- C2, witness: in a feasible assignment whose ramp-down episode ends at hour
0 (inside the constrained range), hour 3 — one of the ten forced hours — has
stable 1 and both ramp indicators 0. -/
theorem C2_witness :
    exAssignB.Rd 0 0 = 1 ∧ exAssignB.Rd 0 1 = 0 ∧
    exAssignB.St 0 3 = 1 ∧ exAssignB.Up 0 3 = 0 ∧ exAssignB.Rd 0 3 = 0 :=
  ⟨by decide, by decide,
   (C2_min_stable exData exAssignB exFeasibleB 0 (by decide) (by decide) 0 (by decide)
      (by decide) (by decide) 3 (by decide) (by decide)).1,
   (C2_min_stable exData exAssignB exFeasibleB 0 (by decide) (by decide) 0 (by decide)
      (by decide) (by decide) 3 (by decide) (by decide)).2.1,
   (C2_min_stable exData exAssignB exFeasibleB 0 (by decide) (by decide) 0 (by decide)
      (by decide) (by decide) 3 (by decide) (by decide)).2.2⟩

/-! ### Claim C8 -/

/-- C8: in every feasible assignment the state-of-charge obeys the exact
recurrence `SOC(t) = SOC(t-1) + eff * CHARGE(t-1) - DISCHARGE(t-1) / eff` at
every interior hour and stays within `[0, energy capacity]`; on windows after
the first, `SOC` at hour 0 is pinned to the transferred value, while on a
first window it is unconstrained — two feasible assignments of the concrete
first-window instance differ at `SOC 0`. -/
theorem C8_soc (d : UCData) (a : UCAssign) (hf : Feasible d a) :
    (∀ t, t < d.lenT → 1 ≤ t →
      a.SOC t = a.SOC (t - 1) + effPHS * a.CHARGE (t - 1) -
        a.DISCHARGE (t - 1) / effPHS) ∧
    (∀ t, t < d.lenT → 0 ≤ a.SOC t ∧ a.SOC t ≤ energyCapacity d) ∧
    (d.first_run = false → a.SOC 0 = d.soc_transfer_last) ∧
    (∃ a1 a2 : UCAssign, Feasible exData a1 ∧ Feasible exData a2 ∧
      exData.first_run = true ∧ a1.SOC 0 ≠ a2.SOC 0) := by
  obtain ⟨hbits, hmode, hbal, hnse, hcap, hvcap, hvcurt, hzcurt, hnph, hup, hdn,
    hdelta, hntz, haux, hru, hrd, hpart, hstab, hvr, hcb, hsb, hsr, hbd, htr,
    hrest⟩ := hf
  exact ⟨hsr, hsb, htr, exAssign, exAssign2, exFeasible, exFeasible2, rfl, by decide⟩

/-- C8, witness: the recurrence at hour 5 and the bounds at the final hour of
the concrete feasible assignment. -/
theorem C8_witness :
    exAssign.SOC 5 = exAssign.SOC 4 + effPHS * exAssign.CHARGE 4 -
      exAssign.DISCHARGE 4 / effPHS ∧
    0 ≤ exAssign.SOC 12 ∧ exAssign.SOC 12 ≤ energyCapacity exData :=
  ⟨(C8_soc exData exAssign exFeasible).1 5 (by decide) (by decide),
   (C8_soc exData exAssign exFeasible).2.1 12 (by decide)⟩

/-! ### Claim C9 -/

/-- C9, counterexample.  The claim says that in the storage scenario (power
capacity 100, duration 4 h, first window, charge and discharge forced to zero
at the final hour) the state of charge at the final hour equals zero.  This
feasible assignment holds the storage idle at a constant state of charge 400:
charge and discharge at the final hour are 0 as required, yet `SOC` at the
final hour is 400, not 0 — no constraint pins the final state of charge. -/
theorem C9_counterexample :
    Feasible exData exAssign ∧ powerCapacity exData = 100 ∧
    exData.PHS_duration = 4 ∧ exData.first_run = true ∧
    exAssign.CHARGE 12 = 0 ∧ exAssign.DISCHARGE 12 = 0 ∧ exAssign.SOC 12 ≠ 0 :=
  ⟨exFeasible, by decide, by decide, rfl, by decide, by decide, by decide⟩

/-- C9 (amended): in the storage scenario (power capacity 100, duration 4 h,
efficiency 0.84, first window), every feasible assignment has charge and
discharge never simultaneously nonzero at any hour, and charge and discharge
at the final hour are forced to zero — but the state of charge at the final
hour is only bounded within `[0, 400]`, not forced to zero. -/
theorem C9_storage_scenario (a : UCAssign) (hf : Feasible exData a) :
    (∀ t, t < exData.lenT → a.CHARGE t = 0 ∨ a.DISCHARGE t = 0) ∧
    a.CHARGE (exData.lenT - 1) = 0 ∧ a.DISCHARGE (exData.lenT - 1) = 0 ∧
    0 ≤ a.SOC (exData.lenT - 1) ∧ a.SOC (exData.lenT - 1) ≤ 400 := by
  obtain ⟨hbits, hmode, hbal, hnse, hcap, hvcap, hvcurt, hzcurt, hnph, hup, hdn,
    hdelta, hntz, haux, hru, hrd, hpart, hstab, hvr, hcb, hsb, hsr, hbd, htr,
    hpz, hmd, hrest⟩ := hf
  have hsocb := hsb (exData.lenT - 1) (by decide)
  have hec : energyCapacity exData = 400 := by decide
  refine ⟨?_, hbd.1, hbd.2, hsocb.1, by rw [← hec]; exact hsocb.2⟩
  intro t ht
  have hm := hmd t ht
  have hcbt := hcb t ht
  rcases hmode t ht with h0 | h1
  · left
    have hle : a.CHARGE t ≤ 0 := by
      have := hm.1
      rw [h0] at this
      simpa using this
    exact le_antisymm hle hcbt.1
  · right
    have hle : a.DISCHARGE t ≤ 0 := by
      have := hm.2
      rw [h1] at this
      simpa using this
    exact le_antisymm hle hcbt.2.2.1

/-- C9, witness: the concrete feasible assignment never charges and
discharges simultaneously (hour 5 shown), and its final-hour charge and
discharge are zero with the final state of charge inside `[0, 400]`. -/
theorem C9_witness :
    (exAssign.CHARGE 5 = 0 ∨ exAssign.DISCHARGE 5 = 0) ∧
    exAssign.CHARGE (exData.lenT - 1) = 0 ∧ exAssign.DISCHARGE (exData.lenT - 1) = 0 ∧
    0 ≤ exAssign.SOC (exData.lenT - 1) ∧ exAssign.SOC (exData.lenT - 1) ≤ 400 :=
  ⟨(C9_storage_scenario exAssign exFeasible).1 5 (by decide),
   (C9_storage_scenario exAssign exFeasible).2⟩

/-! ### Claim C4 -/

/-- C4: the builder fails before returning an instance whenever a required
per-generator column is missing from the fleet table, or whenever some
variable generator's capacity-factor series does not cover every hour of the
horizon; and the horizon an instance is built over is exactly the load
table's own hour column, so the load table covers it by construction. -/
theorem C4_config_errors (rows : List RawGen) (loads : List (ℕ × ℚ))
    (cfTable : List (String × List ℚ)) :
    ((missingRequiredField rows = true ∨
        rows.any (fun r => isVarRow r && !(cfCovers cfTable loads.length r)) = true) →
      ∃ e, setupChecks rows loads cfTable = Except.error e) ∧
    (∀ H, setupChecks rows loads cfTable = Except.ok H → H = loads.map Prod.fst) := by
  constructor
  · intro hd
    by_cases h1 : missingRequiredField rows = true
    · refine ⟨"missing required generator field", ?_⟩
      unfold setupChecks
      rw [h1]
      rfl
    · have h1f : missingRequiredField rows = false := by
        cases hmf : missingRequiredField rows
        · rfl
        · exact absurd hmf h1
      rcases hd with hd | hd
      · exact absurd hd h1
      · refine ⟨"variable capacity factor series does not cover the horizon", ?_⟩
        unfold setupChecks
        rw [h1f, hd]
        rfl
  · intro H hH
    unfold setupChecks at hH
    by_cases h1 : missingRequiredField rows = true
    · rw [h1] at hH
      exact absurd hH (by simp)
    · have h1f : missingRequiredField rows = false := by
        cases hmf : missingRequiredField rows
        · rfl
        · exact absurd hmf h1
      rw [h1f] at hH
      by_cases h2 : rows.any (fun r => isVarRow r && !(cfCovers cfTable loads.length r)) = true
      · rw [h2] at hH
        exact absurd hH (by simp)
      · have h2f : rows.any (fun r => isVarRow r && !(cfCovers cfTable loads.length r)) = false := by
          cases hmf : rows.any (fun r => isVarRow r && !(cfCovers cfTable loads.length r))
          · rfl
          · exact absurd hmf h2
        rw [h2f, if_neg (by decide)] at hH
        exact (Except.ok.inj hH).symm

/-- C4, witness: a fleet table whose second row lacks the `min_power` column
makes the builder fail with a configuration error. -/
theorem C4_witness :
    missingRequiredField exRawRows = true ∧
    ∃ e, setupChecks exRawRows exLoads exCfTable = Except.error e :=
  ⟨by decide, (C4_config_errors exRawRows exLoads exCfTable).1 (Or.inl (by decide))⟩
